import Mathlib

/-!
Shallow embedding of the ETL Log Analyzer core (`src/etl_log_analyzer.py`,
classes `LogParser` and `LogAnalyzer`).  Lines are Lean `String`s, numeric
log fields are `Nat`/`ℚ`, data frames are `List LogRecord`.  The regular
expressions in `LogParser.PATTERNS` are alternations of literal words or
fixed character-shape patterns; they are embedded as executable
character-level matchers with Python `re.search` semantics (leftmost match
wins; the greedy quantifiers in these particular patterns never need
backtracking, as argued in the comments of each matcher).
-/

namespace ETL

/-- Python `\s` (ASCII whitespace: space, tab, newline, return, vtab, formfeed). -/
def pySpace (c : Char) : Bool :=
  c = ' ' || c = '\t' || c = '\n' || c = '\r' || c = '\x0b' || c = '\x0c'

/-- Lower-case one character (ASCII), modelling `re.IGNORECASE` / `str.lower()`. -/
def lc (c : Char) : Char := c.toLower

/-- Lower-case a character list. -/
def lcs (cs : List Char) : List Char := cs.map lc

/-- Case-insensitive "needle is a prefix of hay". -/
def prefixCI (needle hay : List Char) : Bool :=
  (lcs needle).isPrefixOf (lcs hay)

/-- Case-sensitive substring test (Python `in` on strings). -/
def substrAt (needle hay : List Char) : Bool :=
  hay.tails.any (fun t => needle.isPrefixOf t)

/-- Case-insensitive substring test: `re.search('(w1|w2|...)', s, re.IGNORECASE)`
succeeds for a single literal word `w` iff `w` occurs in `s` ignoring case. -/
def substrCI (needle hay : List Char) : Bool :=
  substrAt (lcs needle) (lcs hay)

/-- `re.search` of an alternation of literal words, `re.IGNORECASE`:
true iff some alternative occurs as a case-insensitive substring. -/
def searchAlts (alts : List String) (line : String) : Bool :=
  alts.any (fun t => substrCI t.data line.data)

/-- Match `needle` case-insensitively at the start of `hay`; return the rest. -/
def dropPrefixCI (needle hay : List Char) : Option (List Char) :=
  if prefixCI needle hay then some (hay.drop needle.length) else none

/-- Generic `re.search` driver: try the position matcher `f` at every start
position, left to right, first success wins (leftmost-match semantics). -/
def reSearch (f : List Char → Option α) : List Char → Option α
  | [] => f []
  | c :: cs =>
    match f (c :: cs) with
    | some r => some r
    | none => reSearch f cs

/-- Strip characters satisfying `p` from both ends (Python `str.strip(chars)`). -/
def stripSet (p : Char → Bool) (cs : List Char) : List Char :=
  ((cs.dropWhile p).reverse.dropWhile p).reverse

/-- Python `str.strip()` with no argument: trim leading/trailing whitespace. -/
def pyStrip (s : String) : String := String.mk (stripSet pySpace s.data)

/-! ### Pattern catalog (`LogParser.PATTERNS`)

Word-alternation fields keep the source's list-of-patterns shape: each inner
list is the alternatives of one regex, the outer list is the field's ordered
pattern list. -/

def errorPatterns : List (List String) :=
  [["ERROR", "SEVERE", "FATAL", "Exception", "Failed"],
   ["error", "failure", "exception"]]

def warningPatterns : List (List String) :=
  [["WARNING", "WARN"]]

/-- The alternatives of `PATTERNS['info'][0]`, the field's only pattern. -/
def infoAlts : List String := ["INFO", "Information"]

/-- The alternatives of `PATTERNS['success'][0]`, the field's only pattern. -/
def successAlts : List String := ["SUCCESS", "Completed", "Finished"]

def infoPatterns : List (List String) := [infoAlts]

def successPatterns : List (List String) := [successAlts]

/-! ### Timestamp extraction (`LogParser._extract_timestamp`)

The three timestamp regexes are sequences of: exactly-n digits, a literal
character, or `\s+`.  Greedy `\s+` needs no backtracking here because the
item after it is a digit, which is not whitespace. -/

inductive TsItem where
  | digits (n : Nat)
  | ch (c : Char)
  | ws
deriving DecidableEq

/-- Match exactly `n` characters satisfying `p`; return (matched, rest). -/
def takeExact (n : Nat) (p : Char → Bool) (cs : List Char) :
    Option (List Char × List Char) :=
  let pre := cs.take n
  if pre.length = n && pre.all p then some (pre, cs.drop n) else none

/-- Match one shape item at the head of the input; return (matched, rest). -/
def matchTsItem : TsItem → List Char → Option (List Char × List Char)
  | TsItem.digits n, cs => takeExact n Char.isDigit cs
  | TsItem.ch _, [] => none
  | TsItem.ch c, d :: rest => if d = c then some ([c], rest) else none
  | TsItem.ws, cs =>
    let a := cs.takeWhile pySpace
    if a.isEmpty then none else some (a, cs.dropWhile pySpace)

/-- Match a whole shape at the head of the input, accumulating matched text. -/
def matchTsItems : List TsItem → List Char → Option (List Char × List Char)
  | [], cs => some ([], cs)
  | item :: items, cs =>
    match matchTsItem item cs with
    | none => none
    | some (a, rest) =>
      match matchTsItems items rest with
      | none => none
      | some (b, rest2) => some (a ++ b, rest2)

/-- `r'(\d{4}-\d{2}-\d{2}\s+\d{2}:\d{2}:\d{2})'` -/
def ts1 : List TsItem :=
  [TsItem.digits 4, TsItem.ch '-', TsItem.digits 2, TsItem.ch '-',
   TsItem.digits 2, TsItem.ws, TsItem.digits 2, TsItem.ch ':',
   TsItem.digits 2, TsItem.ch ':', TsItem.digits 2]

/-- `r'(\d{2}/\d{2}/\d{4}\s+\d{2}:\d{2}:\d{2})'` -/
def ts2 : List TsItem :=
  [TsItem.digits 2, TsItem.ch '/', TsItem.digits 2, TsItem.ch '/',
   TsItem.digits 4, TsItem.ws, TsItem.digits 2, TsItem.ch ':',
   TsItem.digits 2, TsItem.ch ':', TsItem.digits 2]

/-- `r'(\[\d{4}-\d{2}-\d{2}T\d{2}:\d{2}:\d{2})'` -/
def ts3 : List TsItem :=
  [TsItem.ch '[', TsItem.digits 4, TsItem.ch '-', TsItem.digits 2,
   TsItem.ch '-', TsItem.digits 2, TsItem.ch 'T', TsItem.digits 2,
   TsItem.ch ':', TsItem.digits 2, TsItem.ch ':', TsItem.digits 2]

/-- Try the timestamp patterns in order; on a match return the matched text
with leading/trailing `[`/`]` stripped (`match.group(1).strip('[]')`). -/
def tsLoop : List (List TsItem) → String → Option String
  | [], _ => none
  | p :: ps, line =>
    match reSearch (fun cs => (matchTsItems p cs).map Prod.fst) line.data with
    | some m => some (String.mk (stripSet (fun c => c = '[' || c = ']') m))
    | none => tsLoop ps line

/-- `LogParser._extract_timestamp` -/
def extract_timestamp (line : String) : Option String :=
  tsLoop [ts1, ts2, ts3] line

/-! ### Level / error / warning (`_extract_level`, `_is_error`, `_is_warning`) -/

/-- `LogParser._is_error`: loop over `PATTERNS['error']`, return `True` on the
first regex that matches (case-insensitively), else `False`. -/
def is_error (line : String) : Bool :=
  errorPatterns.any (fun p => searchAlts p line)

/-- `LogParser._is_warning` -/
def is_warning (line : String) : Bool :=
  warningPatterns.any (fun p => searchAlts p line)

/-- `LogParser._extract_level`: fixed precedence
ERROR → WARNING → SUCCESS → INFO → UNKNOWN (the success and info checks
search `PATTERNS['success'][0]` and `PATTERNS['info'][0]`). -/
def extract_level (line : String) : String :=
  if is_error line then "ERROR"
  else if is_warning line then "WARNING"
  else if searchAlts successAlts line then "SUCCESS"
  else if searchAlts infoAlts line then "INFO"
  else "UNKNOWN"

/-! ### Job name (`LogParser._extract_job_name`)

`r'job[:\s]+([A-Za-z0-9_\-]+)'` (and `workflow`, `session`), `re.IGNORECASE`.
Greedy `[:\s]+` and the greedy capture class need no backtracking: the
capture class is disjoint from `[:\s]`, and nothing follows the capture. -/

def isWordChar (c : Char) : Bool :=
  c.isAlpha || c.isDigit || c = '_' || c = '-'

/-- The separator class `[:\s]` of the job-name and duration regexes. -/
def sepColonSpace (c : Char) : Bool := c = ':' || pySpace c

/-- Match `kw[:\s]+([A-Za-z0-9_\-]+)` at the head of the input (kw matched
case-insensitively); return the captured group. -/
def matchKwName (kw : String) (cs : List Char) : Option String :=
  match dropPrefixCI kw.data cs with
  | none => none
  | some r1 =>
    let seps := r1.takeWhile sepColonSpace
    let r2 := r1.dropWhile sepColonSpace
    if seps.isEmpty then none
    else
      let name := r2.takeWhile isWordChar
      if name.isEmpty then none else some (String.mk name)

/-- Try the job-name keywords' regexes in order over the whole line. -/
def jobLoop : List String → String → Option String
  | [], _ => none
  | kw :: kws, line =>
    match reSearch (matchKwName kw) line.data with
    | some n => some n
    | none => jobLoop kws line

/-- `LogParser._extract_job_name` -/
def extract_job_name (line : String) : Option String :=
  jobLoop ["job", "workflow", "session"] line

/-! ### Duration (`LogParser._extract_duration`)

`r'duration[:\s]+(\d+\.?\d*)\s*(s|ms|seconds|milliseconds)'` (and `elapsed`
with `[:\s]+`, `took` with `\s+`), `re.IGNORECASE`.  Greedy matching needs no
backtracking: shortening `[:\s]+`/`\d+`/`\s*` leaves the next item at a
character it cannot match, and when `\.?` has consumed a dot and the unit
then fails, dropping the dot leaves the unit at the dot, which also fails.
The unit alternation is tried in the written order, so a trailing `seconds`
is captured as `s` (its first character), exactly like Python. -/

/-- Numeric value of a digit run. -/
def digitsToNat (ds : List Char) : Nat :=
  ds.foldl (fun acc c => 10 * acc + (c.toNat - '0'.toNat)) 0

/-- `float(d1 ++ "." ++ d2)` as a rational. -/
def decimalVal (d1 d2 : List Char) : ℚ :=
  (digitsToNat d1 : ℚ) + (digitsToNat d2 : ℚ) / (10 : ℚ) ^ d2.length

/-- The unit alternation `(s|ms|seconds|milliseconds)` at the head of the
input, case-insensitive, alternatives tried in order; the capture is
returned already lower-cased (`match.group(2).lower()`). -/
def unitAt (cs : List Char) : Option String :=
  if prefixCI "s".data cs then some "s"
  else if prefixCI "ms".data cs then some "ms"
  else if prefixCI "seconds".data cs then some "seconds"
  else if prefixCI "milliseconds".data cs then some "milliseconds"
  else none

/-- Match one duration rule (`kw` + separator class `sep` + number + `\s*` +
unit) at the head of the input; return the captures: the numeric group as
its integer and fraction digit runs (group 1 reads `d1` or `d1 "." d2`),
and the unit group. -/
def matchDurRule (sep : Char → Bool) (kw : String) (cs : List Char) :
    Option (List Char × List Char × String) :=
  match dropPrefixCI kw.data cs with
  | none => none
  | some r1 =>
    let seps := r1.takeWhile sep
    let r2 := r1.dropWhile sep
    if seps.isEmpty then none
    else
      let d1 := r2.takeWhile Char.isDigit
      let r3 := r2.dropWhile Char.isDigit
      if d1.isEmpty then none
      else
        let fracRest : List Char × List Char :=
          match r3 with
          | '.' :: r => (r.takeWhile Char.isDigit, r.dropWhile Char.isDigit)
          | _ => ([], r3)
        let r5 := fracRest.2.dropWhile pySpace
        match unitAt r5 with
        | none => none
        | some u => some (d1, fracRest.1, u)

/-- The first matching duration rule's captures, rules tried in the
catalog's order, each with `re.search` over the whole line. -/
def durLoop : List ((Char → Bool) × String) → String →
    Option (List Char × List Char × String)
  | [], _ => none
  | (sep, kw) :: rest, line =>
    match reSearch (matchDurRule sep kw) line.data with
    | some r => some r
    | none => durLoop rest line

/-- The duration rules: keyword and its separator class
(`duration[:\s]+`, `elapsed[:\s]+`, `took\s+`). -/
def durSearch (line : String) : Option (List Char × List Char × String) :=
  durLoop [(sepColonSpace, "duration"), (sepColonSpace, "elapsed"),
           (pySpace, "took")] line

/-- `LogParser._extract_duration`: `float(group(1))`, then normalize
`ms`/`millisecond` units to seconds (`value / 1000`). -/
def extract_duration (line : String) : Option ℚ :=
  match durSearch line with
  | none => none
  | some (d1, d2, u) =>
    some (if substrAt "ms".data u.data || substrAt "millisecond".data u.data
          then decimalVal d1 d2 / 1000 else decimalVal d1 d2)

/-! ### Rows processed (`LogParser._extract_rows_processed`)

`r'(\d+)\s+rows?\s+(processed|loaded|extracted|inserted)'` and
`r'processed\s+(\d+)\s+records?'`, `re.IGNORECASE`.  Greedy runs need no
backtracking (next item never matches a character of the run), and when the
optional `s` of `rows?` is present but the following `\s+` fails, dropping
the `s` leaves `\s+` at the `s`, which also fails. -/

/-- Match rule 1 at the head of the input; return the captured count. -/
def matchRowsA (cs : List Char) : Option Nat :=
  let d1 := cs.takeWhile Char.isDigit
  let r1 := cs.dropWhile Char.isDigit
  if d1.isEmpty then none
  else
    let ws1 := r1.takeWhile pySpace
    let r2 := r1.dropWhile pySpace
    if ws1.isEmpty then none
    else
      match dropPrefixCI "row".data r2 with
      | none => none
      | some r3 =>
        let r4 := match r3 with
          | c :: r => if lc c = 's' then r else r3
          | [] => r3
        let ws2 := r4.takeWhile pySpace
        let r5 := r4.dropWhile pySpace
        if ws2.isEmpty then none
        else
          if prefixCI "processed".data r5 || prefixCI "loaded".data r5 ||
             prefixCI "extracted".data r5 || prefixCI "inserted".data r5
          then some (digitsToNat d1) else none

/-- Match rule 2 (`processed\s+(\d+)\s+records?`) at the head of the input. -/
def matchRowsB (cs : List Char) : Option Nat :=
  match dropPrefixCI "processed".data cs with
  | none => none
  | some r1 =>
    let ws1 := r1.takeWhile pySpace
    let r2 := r1.dropWhile pySpace
    if ws1.isEmpty then none
    else
      let d1 := r2.takeWhile Char.isDigit
      let r3 := r2.dropWhile Char.isDigit
      if d1.isEmpty then none
      else
        let ws2 := r3.takeWhile pySpace
        let r4 := r3.dropWhile pySpace
        if ws2.isEmpty then none
        else if prefixCI "record".data r4 then some (digitsToNat d1) else none

/-- `LogParser._extract_rows_processed` -/
def extract_rows_processed (line : String) : Option Nat :=
  match reSearch matchRowsA line.data with
  | some n => some n
  | none => reSearch matchRowsB line.data

/-! ### Records and ingestion (`LogParser.parse_log_file`) -/

/-- One row of the parsed data frame: the per-line extraction result. -/
structure LogRecord where
  line_number : Nat
  raw_text : String
  timestamp : Option String
  level : String
  job_name : Option String
  duration : Option ℚ
  rows_processed : Option Nat
  is_error : Bool
  is_warning : Bool
deriving DecidableEq

instance : Inhabited LogRecord :=
  ⟨⟨0, "", none, "", none, none, none, false, false⟩⟩

/-- The entry dict built for one line in `parse_log_file`'s loop. -/
def parseLine (line_num : Nat) (line : String) : LogRecord :=
  { line_number := line_num
    raw_text := pyStrip line
    timestamp := extract_timestamp line
    level := extract_level line
    job_name := extract_job_name line
    duration := extract_duration line
    rows_processed := extract_rows_processed line
    is_error := is_error line
    is_warning := is_warning line }

/-- The `for line_num, line in enumerate(lines, 1)` loop: one record per
line, 1-based numbering, original order. -/
def parseLines (lines : List String) : List LogRecord :=
  lines.enum.map (fun p => parseLine (p.1 + 1) p.2)

/-- `LogParser.parse_log_file`.  The file read is shallowly embedded as an
`Except`-valued line source: `.ok lines` is a readable file already split
into lines, `.error e` a read that raised `e`.  The `except` clause wraps
the cause as `Exception(f"Error parsing log file: {str(e)}")`. -/
def parse_log_file (input : Except String (List String)) :
    Except String (List LogRecord) :=
  match input with
  | Except.ok lines => Except.ok (parseLines lines)
  | Except.error e => Except.error ("Error parsing log file: " ++ e)

/-! ### Aggregation (`LogAnalyzer`)

`parse_log_file` hands `LogAnalyzer.analyze` the frame `pd.DataFrame(entries)`.
When `entries` is empty (a zero-line file) that frame has **no columns**, and
the first column access `df['...']` in each analyzer method raises
`KeyError`; when `entries` is non-empty the frame carries all eight columns,
and row-filtered sub-frames keep their columns even with zero rows.  Each
analyzer method is therefore embedded as an `Except`-valued function whose
error case is the `KeyError` raised on the column-less empty frame; the
method's result on a frame with columns is a pure `...Of` body function. -/

/-- The boolean-mask selection `df[df['is_error'] == True]` (on a frame
with columns), order kept. -/
def errorRows (df : List LogRecord) : List LogRecord :=
  df.filter (fun r => r.is_error)

/-- The boolean-mask selection `df[df['is_warning'] == True]`. -/
def warningRows (df : List LogRecord) : List LogRecord :=
  df.filter (fun r => r.is_warning)

/-- `LogAnalyzer._get_errors`: `df['is_error']` raises `KeyError` on the
column-less empty frame; otherwise the error rows, order kept. -/
def get_errors (df : List LogRecord) : Except String (List LogRecord) :=
  if df.isEmpty then Except.error "KeyError: is_error"
  else Except.ok (errorRows df)

/-- `LogAnalyzer._get_warnings`: `df['is_warning']` raises `KeyError` on
the column-less empty frame. -/
def get_warnings (df : List LogRecord) : Except String (List LogRecord) :=
  if df.isEmpty then Except.error "KeyError: is_warning"
  else Except.ok (warningRows df)

/-- Scan keeping a set of already-seen values: the values not seen before,
in encounter order. -/
def uniqueFirstAux (seen : List String) : List String → List String
  | [] => []
  | a :: l =>
    if a ∈ seen then uniqueFirstAux seen l
    else a :: uniqueFirstAux (a :: seen) l

/-- `pandas.unique` on a column: distinct values in order of first
appearance. -/
def uniqueFirst (l : List String) : List String := uniqueFirstAux [] l

/-- `_get_time_range`'s body on a frame with columns: `"<first> to <last>"`
over the non-null timestamps in file order, `"Unknown"` if there are none. -/
def timeRangeOf (df : List LogRecord) : String :=
  let timestamps := df.filterMap (fun r => r.timestamp)
  match timestamps with
  | [] => "Unknown"
  | t :: ts => t ++ " to " ++ ts.getLastD t

/-- `LogAnalyzer._get_time_range`: `df['timestamp']` raises `KeyError` on
the column-less empty frame. -/
def get_time_range (df : List LogRecord) : Except String String :=
  if df.isEmpty then Except.error "KeyError: timestamp"
  else Except.ok (timeRangeOf df)

/-- The `summary` dict of `LogAnalyzer._get_summary`. -/
structure Summary where
  total_lines : Nat
  error_count : Nat
  warning_count : Nat
  unique_jobs : Nat
  time_range : String
deriving DecidableEq

/-- `_get_summary`'s body on a frame with columns: `df['is_error'].sum()`
over booleans is the count of true entries; `nunique()` is the number of
distinct non-null job names. -/
def summaryOf (df : List LogRecord) : Summary :=
  { total_lines := df.length
    error_count := df.countP (fun r => r.is_error)
    warning_count := df.countP (fun r => r.is_warning)
    unique_jobs := (uniqueFirst (df.filterMap (fun r => r.job_name))).length
    time_range := timeRangeOf df }

/-- `LogAnalyzer._get_summary`: the dict literal evaluates `len(df)` and
then `df['is_error'].sum()`, which raises `KeyError` on the column-less
empty frame; on a frame with columns it calls `_get_time_range` and
returns the summary. -/
def get_summary (df : List LogRecord) : Except String Summary :=
  if df.isEmpty then Except.error "KeyError: is_error"
  else
    match get_time_range df with
    | Except.error e => Except.error e
    | Except.ok tr =>
      Except.ok { total_lines := df.length
                  error_count := df.countP (fun r => r.is_error)
                  warning_count := df.countP (fun r => r.is_warning)
                  unique_jobs :=
                    (uniqueFirst (df.filterMap (fun r => r.job_name))).length
                  time_range := tr }

/-- Sum of a rational list (`pandas.Series.sum`). -/
def qSum (l : List ℚ) : ℚ := l.foldl (fun a b => a + b) 0

/-- Maximum of a rational list (`pandas.Series.max`; callers guard
non-emptiness). -/
def qMax : List ℚ → ℚ
  | [] => 0
  | h :: t => t.foldl max h

/-- The duration-bearing rows paired with their positions in the frame. -/
def withDurIdx (df : List LogRecord) : List (Nat × LogRecord) :=
  df.enum.filter (fun p => p.2.duration.isSome)

/-- The duration of an indexed row (callers only use it on rows where the
duration is present). -/
def durOf (p : Nat × LogRecord) : ℚ := p.2.duration.getD 0

/-- The ordering realising `nlargest(10, 'duration')` with `keep='first'`:
descending duration, ties broken by original position.  On rows paired with
their (distinct) positions this is a total order, so the sorted list below
is the unique stable descending arrangement, exactly pandas' result. -/
def slowRel (a b : Nat × LogRecord) : Prop :=
  durOf b < durOf a ∨ (durOf a = durOf b ∧ a.1 ≤ b.1)

instance : DecidableRel slowRel := fun a b => by
  unfold slowRel; infer_instance

instance : IsTotal (Nat × LogRecord) slowRel :=
  ⟨fun a b => by
    unfold slowRel
    rcases lt_trichotomy (durOf a) (durOf b) with h | h | h
    · exact Or.inr (Or.inl h)
    · rcases Nat.le_total a.1 b.1 with h2 | h2
      · exact Or.inl (Or.inr ⟨h, h2⟩)
      · exact Or.inr (Or.inr ⟨h.symm, h2⟩)
    · exact Or.inl (Or.inl h)⟩

instance : IsTrans (Nat × LogRecord) slowRel :=
  ⟨fun a b c hab hbc => by
    unfold slowRel at *
    rcases hab with h1 | ⟨h1, h1i⟩ <;> rcases hbc with h2 | ⟨h2, h2i⟩
    · exact Or.inl (h2.trans h1)
    · exact Or.inl (by linarith)
    · exact Or.inl (by linarith)
    · exact Or.inr ⟨h1.trans h2, h1i.trans h2i⟩⟩

/-- `duration_data.nlargest(10, 'duration')` keeping positions: stable
descending sort, first 10 rows. -/
def slowOpsIdx (df : List LogRecord) : List (Nat × LogRecord) :=
  ((withDurIdx df).insertionSort slowRel).take 10

/-- The `performance` dict of `LogAnalyzer._analyze_performance`. -/
structure Performance where
  avg_duration : ℚ
  max_duration : ℚ
  total_rows_processed : Nat
  slow_operations : List LogRecord
deriving DecidableEq

/-- `_analyze_performance`'s body on a frame with columns. -/
def perfOf (df : List LogRecord) : Performance :=
  let duration_data := df.filter (fun r => r.duration.isSome)
  let durs := duration_data.filterMap (fun r => r.duration)
  let rows_data := df.filter (fun r => r.rows_processed.isSome)
  { avg_duration :=
      if duration_data.length > 0 then qSum durs / (durs.length : ℚ) else 0
    max_duration := if duration_data.length > 0 then qMax durs else 0
    total_rows_processed :=
      if rows_data.length > 0 then
        (rows_data.filterMap (fun r => r.rows_processed)).foldl
          (fun a b => a + b) 0
      else 0
    slow_operations :=
      if duration_data.length > 0 then (slowOpsIdx df).map Prod.snd else [] }

/-- `LogAnalyzer._analyze_performance`: `df['duration']` raises `KeyError`
on the column-less empty frame. -/
def analyze_performance (df : List LogRecord) : Except String Performance :=
  if df.isEmpty then Except.error "KeyError: duration"
  else Except.ok (perfOf df)

/-- One job's entry in the `job_stats` dict of `LogAnalyzer._analyze_jobs`. -/
structure JobStats where
  occurrences : Nat
  errors : Nat
  warnings : Nat
  avg_duration : Option ℚ
deriving DecidableEq

/-- The stats computed for one job name (`job_df = jobs_data[... == name]`;
`mean()` skips nulls, and is only taken when some duration is present). -/
def jobStatsFor (jobs_data : List LogRecord) (name : String) : JobStats :=
  let job_df := jobs_data.filter (fun r => decide (r.job_name = some name))
  let durs := job_df.filterMap (fun r => r.duration)
  { occurrences := job_df.length
    errors := job_df.countP (fun r => r.is_error)
    warnings := job_df.countP (fun r => r.is_warning)
    avg_duration :=
      if durs.isEmpty then none else some (qSum durs / (durs.length : ℚ)) }

/-- `_analyze_jobs`'s body on a frame with columns: group the
job-name-bearing rows by name (keys in order of first appearance,
`pandas.unique`). -/
def jobsOf (df : List LogRecord) : List (String × JobStats) :=
  let jobs_data := df.filter (fun r => r.job_name.isSome)
  if jobs_data.length = 0 then []
  else
    (uniqueFirst (jobs_data.filterMap (fun r => r.job_name))).map
      (fun name => (name, jobStatsFor jobs_data name))

/-- `LogAnalyzer._analyze_jobs`: `df['job_name']` raises `KeyError` on the
column-less empty frame. -/
def analyze_jobs (df : List LogRecord) :
    Except String (List (String × JobStats)) :=
  if df.isEmpty then Except.error "KeyError: job_name"
  else Except.ok (jobsOf df)

/-! ### Root-cause suggestions (`LogAnalyzer._suggest_root_causes`) -/

def connKeywords : List String := ["connection", "timeout", "network"]

def memKeywords : List String := ["memory", "heap", "out of memory"]

def dataKeywords : List String := ["null", "invalid", "corrupt", "constraint"]

def permKeywords : List String := ["permission", "denied", "unauthorized", "access"]

/-- `Series.str.contains('k1|k2|...', case=False)`: some keyword occurs as a
case-insensitive substring. -/
def containsAnyCI (keywords : List String) (s : String) : Bool :=
  keywords.any (fun k => substrCI k.data s.data)

/-- Number of error rows whose raw text matches a keyword family. -/
def famCount (df : List LogRecord) (keywords : List String) : Nat :=
  ((errorRows df).filter (fun r => containsAnyCI keywords r.raw_text)).length

/-- Rows with `df['duration'] > 60` (a null duration compares false). -/
def slowOver60 (df : List LogRecord) : List LogRecord :=
  df.filter (fun r =>
    match r.duration with
    | some d => decide (d > 60)
    | none => false)

/-- `_suggest_root_causes`'s body on a frame with columns: the
`suggestions` list built by the sequence of appends, with the
`len(error_df) > 0` guard around the four keyword families and the
no-issues fallback when nothing was appended. -/
def rootCausesOf (df : List LogRecord) : List String :=
  let error_df := errorRows df
  let famPart : List String :=
    if error_df.length > 0 then
      (if famCount df connKeywords > 0 then
        ["‚ö†Ô∏è Connection/Network Issues: " ++
          toString (famCount df connKeywords) ++ " occurrences"] else [])
      ++ (if famCount df memKeywords > 0 then
        ["‚ö†Ô∏è Memory Issues: " ++
          toString (famCount df memKeywords) ++ " occurrences"] else [])
      ++ (if famCount df dataKeywords > 0 then
        ["‚ö†Ô∏è Data Quality Issues: " ++
          toString (famCount df dataKeywords) ++ " occurrences"] else [])
      ++ (if famCount df permKeywords > 0 then
        ["‚ö†Ô∏è Permission/Access Issues: " ++
          toString (famCount df permKeywords) ++ " occurrences"] else [])
    else []
  let suggestions := famPart ++
    (if (slowOver60 df).length > 0 then
      ["‚ö†Ô∏è Performance Bottlenecks: " ++ toString (slowOver60 df).length ++
        " slow operations (>60s)"] else [])
  if suggestions.isEmpty then ["‚úì No obvious issues detected"] else suggestions

/-- `LogAnalyzer._suggest_root_causes`: `df['is_error']` raises `KeyError`
on the column-less empty frame. -/
def suggest_root_causes (df : List LogRecord) : Except String (List String) :=
  if df.isEmpty then Except.error "KeyError: is_error"
  else Except.ok (rootCausesOf df)

/-- The `analysis` dict of `LogAnalyzer.analyze`. -/
structure AnalysisResult where
  summary : Summary
  errors : List LogRecord
  warnings : List LogRecord
  performance : Performance
  jobs : List (String × JobStats)
  root_causes : List String
deriving DecidableEq

/-- `LogAnalyzer.analyze`: the `analysis` dict evaluates its entries in
order, so the `KeyError` of the first failing column access propagates —
on the column-less empty frame that is `_get_summary`'s `is_error`. -/
def analyze (df : List LogRecord) : Except String AnalysisResult :=
  match get_summary df with
  | Except.error e => Except.error e
  | Except.ok summary =>
    match get_errors df with
    | Except.error e => Except.error e
    | Except.ok errors =>
      match get_warnings df with
      | Except.error e => Except.error e
      | Except.ok warnings =>
        match analyze_performance df with
        | Except.error e => Except.error e
        | Except.ok performance =>
          match analyze_jobs df with
          | Except.error e => Except.error e
          | Except.ok jobs =>
            match suggest_root_causes df with
            | Except.error e => Except.error e
            | Except.ok root_causes =>
              Except.ok { summary := summary, errors := errors,
                          warnings := warnings, performance := performance,
                          jobs := jobs, root_causes := root_causes }

/-! ### Concrete sample inputs used by the witness theorems -/

/-- A minimal record with the given position, job name, flags and duration. -/
def mkRec (i : Nat) (name : Option String) (err warn : Bool) (d : Option ℚ) :
    LogRecord :=
  { line_number := i, raw_text := "", timestamp := none, level := "UNKNOWN",
    job_name := name, duration := d, rows_processed := none,
    is_error := err, is_warning := warn }

/-- Eleven records with distinct durations 0..10 (one more than the top-10). -/
def sampleDurDf : List LogRecord :=
  (List.range 11).map (fun i => mkRec (i + 1) none false false (some (i : ℚ)))

/-- Three records over two jobs. -/
def sampleJobsDf : List LogRecord :=
  [mkRec 1 (some "A") true false (some 2),
   mkRec 2 (some "B") false true none,
   mkRec 3 (some "A") false false none]

/-- Two raw source lines. -/
def sampleLines : List String :=
  ["  2024-01-01 10:00:00 ERROR job: LoadCustomers Failed after 1500 ms  ",
   "INFO all good"]

/-- Two error lines hitting the connection and permission keyword families. -/
def sampleErrDf : List LogRecord :=
  parseLines ["ERROR connection timeout", "ERROR permission denied"]

/-! ## Supporting lemmas -/

theorem mem_uniqueFirstAux :
    ∀ (l seen : List String) (a : String),
      a ∈ uniqueFirstAux seen l ↔ (a ∈ l ∧ a ∉ seen) := by
  intro l
  induction l with
  | nil => intro seen a; simp [uniqueFirstAux]
  | cons b l ih =>
    intro seen a
    rw [uniqueFirstAux]
    by_cases hb : b ∈ seen
    · rw [if_pos hb, ih]
      constructor
      · rintro ⟨h1, h2⟩
        exact ⟨List.mem_cons_of_mem _ h1, h2⟩
      · rintro ⟨h1, h2⟩
        rcases List.mem_cons.1 h1 with rfl | h1
        · exact absurd hb h2
        · exact ⟨h1, h2⟩
    · rw [if_neg hb, List.mem_cons, ih]
      constructor
      · rintro (rfl | ⟨h1, h2⟩)
        · exact ⟨List.mem_cons_self _ _, hb⟩
        · refine ⟨List.mem_cons_of_mem _ h1, fun hs => ?_⟩
          exact h2 (List.mem_cons_of_mem _ hs)
      · rintro ⟨h1, h2⟩
        by_cases hab : a = b
        · exact Or.inl hab
        · refine Or.inr ⟨(List.mem_cons.1 h1).resolve_left hab, fun hs => ?_⟩
          rcases List.mem_cons.1 hs with h | h
          · exact hab h
          · exact h2 h

theorem mem_uniqueFirst (l : List String) (a : String) :
    a ∈ uniqueFirst l ↔ a ∈ l := by
  rw [uniqueFirst, mem_uniqueFirstAux]
  simp

theorem filterMap_filter_isSome {α β : Type} (f : α → Option β) (l : List α) :
    (l.filter (fun r => (f r).isSome)).filterMap f = l.filterMap f := by
  induction l with
  | nil => rfl
  | cons a l ih =>
    cases h : f a with
    | none => simp [List.filter_cons, List.filterMap_cons, h, ih]
    | some b => simp [List.filter_cons, List.filterMap_cons, h, ih]

theorem filter_isSome_filter {α β : Type} [DecidableEq β]
    (f : α → Option β) (v : β) (l : List α) :
    (l.filter (fun r => (f r).isSome)).filter (fun r => decide (f r = some v)) =
      l.filter (fun r => decide (f r = some v)) := by
  rw [List.filter_filter]
  apply List.filter_congr
  intro r _
  cases h : f r <;> simp [h]

theorem map_snd_filter_enumFrom {α : Type} (q : α → Bool) :
    ∀ (l : List α) (n : Nat),
      ((List.enumFrom n l).filter (fun p => q p.2)).map Prod.snd = l.filter q := by
  intro l
  induction l with
  | nil => intro n; rfl
  | cons a l ih =>
    intro n
    cases h : q a <;>
      simp [List.enumFrom_cons, List.filter_cons, h, ih (n + 1)]

theorem pairwise_fst_lt_enumFrom {α : Type} :
    ∀ (l : List α) (n : Nat),
      List.Pairwise (fun a b : Nat × α => a.1 < b.1) (List.enumFrom n l) := by
  intro l
  induction l with
  | nil => intro n; simp
  | cons a l ih =>
    intro n
    rw [List.enumFrom_cons]
    refine List.Pairwise.cons ?_ (ih (n + 1))
    rintro ⟨i, x⟩ hb
    exact (List.mem_enumFrom hb).1

theorem parseLines_length (lines : List String) :
    (parseLines lines).length = lines.length := by
  simp [parseLines, List.enum_length]

theorem parseLines_getD (lines : List String) (i : Nat) (h : i < lines.length) :
    (parseLines lines).getD i default = parseLine (i + 1) (lines.getD i "") := by
  have hl : i < (parseLines lines).length := by
    rw [parseLines_length]; exact h
  rw [List.getD_eq_getElem _ _ hl, List.getD_eq_getElem _ _ h]
  simp [parseLines, List.getElem_enum]

theorem filterMap_ite_cons {α β : Type} (p : α → Prop) [DecidablePred p]
    (g : α → β) (a : α) (l : List α) :
    (a :: l).filterMap (fun f => if p f then some (g f) else none) =
      (if p a then [g a] else []) ++
        l.filterMap (fun f => if p f then some (g f) else none) := by
  by_cases h : p a <;> simp [List.filterMap_cons, h]

theorem extract_duration_eq (line : String) (d1 d2 : List Char) (u : String)
    (h : durSearch line = some (d1, d2, u)) :
    extract_duration line =
      some (if substrAt "ms".data u.data || substrAt "millisecond".data u.data
            then decimalVal d1 d2 / 1000 else decimalVal d1 d2) := by
  simp [extract_duration, h]

theorem isEmpty_false_of_ne_nil {α : Type} {l : List α} (h : l ≠ []) :
    l.isEmpty = false := by
  cases l with
  | nil => exact absurd rfl h
  | cons a t => rfl

theorem get_time_range_ok (df : List LogRecord) (h : df ≠ []) :
    get_time_range df = Except.ok (timeRangeOf df) := by
  simp [get_time_range, isEmpty_false_of_ne_nil h]

theorem get_summary_ok (df : List LogRecord) (h : df ≠ []) :
    get_summary df = Except.ok (summaryOf df) := by
  simp [get_summary, get_time_range_ok df h, isEmpty_false_of_ne_nil h,
    summaryOf]

theorem get_errors_ok (df : List LogRecord) (h : df ≠ []) :
    get_errors df = Except.ok (errorRows df) := by
  simp [get_errors, isEmpty_false_of_ne_nil h]

theorem get_warnings_ok (df : List LogRecord) (h : df ≠ []) :
    get_warnings df = Except.ok (warningRows df) := by
  simp [get_warnings, isEmpty_false_of_ne_nil h]

theorem analyze_performance_ok (df : List LogRecord) (h : df ≠ []) :
    analyze_performance df = Except.ok (perfOf df) := by
  simp [analyze_performance, isEmpty_false_of_ne_nil h]

theorem analyze_jobs_ok (df : List LogRecord) (h : df ≠ []) :
    analyze_jobs df = Except.ok (jobsOf df) := by
  simp [analyze_jobs, isEmpty_false_of_ne_nil h]

theorem suggest_root_causes_ok (df : List LogRecord) (h : df ≠ []) :
    suggest_root_causes df = Except.ok (rootCausesOf df) := by
  simp [suggest_root_causes, isEmpty_false_of_ne_nil h]

theorem analyze_ok (df : List LogRecord) (h : df ≠ []) :
    analyze df = Except.ok
      { summary := summaryOf df
        errors := errorRows df
        warnings := warningRows df
        performance := perfOf df
        jobs := jobsOf df
        root_causes := rootCausesOf df } := by
  rw [analyze, get_summary_ok df h, get_errors_ok df h, get_warnings_ok df h,
    analyze_performance_ok df h, analyze_jobs_ok df h,
    suggest_root_causes_ok df h]

/-! ## Claim theorems -/

/-- C1 (code bug): on the empty record collection — zero input lines, so
`pd.DataFrame([])` has no columns — the Aggregation Engine does **not**
return the empty `AnalysisResult` the specification asserts: every analyzer
method fails at its first column access, and `analyze` propagates
`_get_summary`'s `KeyError` on `is_error` instead of producing zero counts,
the `"Unknown"` time range and the no-issues suggestion. -/
theorem claim_C1 :
    analyze [] = Except.error "KeyError: is_error" ∧
    get_summary [] = Except.error "KeyError: is_error" ∧
    get_errors [] = Except.error "KeyError: is_error" ∧
    get_warnings [] = Except.error "KeyError: is_warning" ∧
    get_time_range [] = Except.error "KeyError: timestamp" ∧
    analyze_performance [] = Except.error "KeyError: duration" ∧
    analyze_jobs [] = Except.error "KeyError: job_name" ∧
    suggest_root_causes [] = Except.error "KeyError: is_error" :=
  ⟨rfl, rfl, rfl, rfl, rfl, rfl, rfl, rfl⟩

/-- C2: Ingestion of a readable source yields exactly one `LogRecord` per
input line in original order, with 1-based `line_number` and whitespace-
trimmed `raw_text`; an unreadable source fails with the wrapping ingestion
error. -/
theorem claim_C2 :
    (∀ lines : List String,
      parse_log_file (Except.ok lines) = Except.ok (parseLines lines) ∧
      (parseLines lines).length = lines.length ∧
      ∀ i : Nat, i < lines.length →
        ((parseLines lines).getD i default).line_number = i + 1 ∧
        ((parseLines lines).getD i default).raw_text = pyStrip (lines.getD i "")) ∧
    (∀ e : String,
      parse_log_file (Except.error e) =
        Except.error ("Error parsing log file: " ++ e)) := by
  constructor
  · intro lines
    refine ⟨rfl, parseLines_length lines, fun i h => ?_⟩
    rw [parseLines_getD lines i h]
    exact ⟨rfl, rfl⟩
  · intro e
    rfl

/-- Witness for C2 at a concrete two-line source and a failing source. -/
theorem claim_C2_witness :
    parse_log_file (Except.ok sampleLines) = Except.ok (parseLines sampleLines) ∧
    ((parseLines sampleLines).getD 1 default).line_number = 2 ∧
    ((parseLines sampleLines).getD 1 default).raw_text = pyStrip "INFO all good" ∧
    parse_log_file (Except.error "disk gone") =
      Except.error ("Error parsing log file: " ++ "disk gone") := by
  obtain ⟨h1, h2⟩ := claim_C2
  obtain ⟨ha, _, hc⟩ := h1 sampleLines
  obtain ⟨hd, he⟩ := hc 1 (by decide)
  exact ⟨ha, hd, by rw [he]; rfl, h2 "disk gone"⟩

/-- C3: the level is assigned by the fixed precedence ERROR → WARNING →
SUCCESS → INFO → UNKNOWN, first match winning; in particular a line
matching both error and success tokens is classified ERROR. -/
theorem claim_C3 (line : String) :
    (is_error line = true → extract_level line = "ERROR") ∧
    (is_error line = false → is_warning line = true →
      extract_level line = "WARNING") ∧
    (is_error line = false → is_warning line = false →
      searchAlts successAlts line = true →
      extract_level line = "SUCCESS") ∧
    (is_error line = false → is_warning line = false →
      searchAlts successAlts line = false →
      searchAlts infoAlts line = true →
      extract_level line = "INFO") ∧
    (is_error line = false → is_warning line = false →
      searchAlts successAlts line = false →
      searchAlts infoAlts line = false →
      extract_level line = "UNKNOWN") ∧
    (is_error line = true → searchAlts successAlts line = true →
      extract_level line = "ERROR") := by
  refine ⟨?_, ?_, ?_, ?_, ?_, ?_⟩ <;> intros <;> simp [extract_level, *]

/-- Witness for C3 on a line matching both error and success tokens. -/
theorem claim_C3_witness :
    is_error "Job Completed with error" = true ∧
    searchAlts successAlts "Job Completed with error" = true ∧
    extract_level "Job Completed with error" = "ERROR" :=
  ⟨by decide, by decide,
   (claim_C3 "Job Completed with error").2.2.2.2.2 (by decide) (by decide)⟩

/-- C4: `is_error` holds iff some pattern of the error field matches the
line case-insensitively (likewise `is_warning` for the warning field), and a
line matching an error token always has `is_error = true`. -/
theorem claim_C4 (line : String) :
    (is_error line = true ↔
      ∃ p ∈ errorPatterns, ∃ t ∈ p, substrCI t.data line.data = true) ∧
    (is_warning line = true ↔
      ∃ p ∈ warningPatterns, ∃ t ∈ p, substrCI t.data line.data = true) ∧
    (∀ p ∈ errorPatterns, ∀ t ∈ p, substrCI t.data line.data = true →
      is_error line = true) := by
  refine ⟨?_, ?_, ?_⟩
  · simp [is_error, searchAlts, List.any_eq_true]
  · simp [is_warning, searchAlts, List.any_eq_true]
  · intro p hp t ht h
    simp only [is_error, searchAlts, List.any_eq_true]
    exact ⟨p, hp, t, ht, h⟩

/-- Witness for C4 at a line containing `Failed` inside a longer token. -/
theorem claim_C4_witness :
    substrCI "Failed".data "Task xFailedx ok".data = true ∧
    is_error "Task xFailedx ok" = true :=
  ⟨by decide,
   (claim_C4 "Task xFailedx ok").2.2
     ["ERROR", "SEVERE", "FATAL", "Exception", "Failed"] (by decide)
     "Failed" (by decide) (by decide)⟩

/-- C5: duration normalization — a first-matching rule with unit `ms` or
`milliseconds` yields value/1000, unit `s` or `seconds` yields the value
unchanged; `"took 1500 ms"` gives 1.5 and `"elapsed: 2.5s"` gives 2.5. -/
theorem claim_C5 :
    (∀ (line : String) (d1 d2 : List Char) (u : String),
      durSearch line = some (d1, d2, u) →
      ((u = "ms" ∨ u = "milliseconds") →
        extract_duration line = some (decimalVal d1 d2 / 1000)) ∧
      ((u = "s" ∨ u = "seconds") →
        extract_duration line = some (decimalVal d1 d2))) ∧
    extract_duration "took 1500 ms" = some (3 / 2) ∧
    extract_duration "elapsed: 2.5s" = some (5 / 2) := by
  refine ⟨?_, ?_, ?_⟩
  · intro line d1 d2 u h
    constructor
    · rintro (rfl | rfl)
      · rw [extract_duration_eq line d1 d2 "ms" h, if_pos (by decide)]
      · rw [extract_duration_eq line d1 d2 "milliseconds" h, if_pos (by decide)]
    · rintro (rfl | rfl)
      · rw [extract_duration_eq line d1 d2 "s" h, if_neg (by decide)]
      · rw [extract_duration_eq line d1 d2 "seconds" h, if_neg (by decide)]
  · have h : durSearch "took 1500 ms" = some (['1', '5', '0', '0'], [], "ms") := by
      decide
    rw [extract_duration_eq _ _ _ _ h, if_pos (by decide)]
    norm_num [decimalVal,
      show digitsToNat ['1', '5', '0', '0'] = 1500 from by decide,
      show digitsToNat ([] : List Char) = 0 from by decide]
  · have h : durSearch "elapsed: 2.5s" = some (['2'], ['5'], "s") := by decide
    rw [extract_duration_eq _ _ _ _ h, if_neg (by decide)]
    norm_num [decimalVal,
      show digitsToNat ['2'] = 2 from by decide,
      show digitsToNat ['5'] = 5 from by decide]

/-- Witness for C5 at `"took 1500 ms"`. -/
theorem claim_C5_witness :
    durSearch "took 1500 ms" = some (['1', '5', '0', '0'], [], "ms") ∧
    extract_duration "took 1500 ms" =
      some (decimalVal ['1', '5', '0', '0'] [] / 1000) :=
  ⟨by decide,
   (claim_C5.1 "took 1500 ms" ['1', '5', '0', '0'] [] "ms" (by decide)).1
     (Or.inl rfl)⟩

/-- C9: on a non-empty collection the analysis succeeds and the summary's
error and warning counts agree with the lengths of the error and warning
subsets of the same `AnalysisResult`. -/
theorem claim_C9 (df : List LogRecord) (h : df ≠ []) :
    ∃ res : AnalysisResult, analyze df = Except.ok res ∧
      res.summary.error_count = res.errors.length ∧
      res.summary.warning_count = res.warnings.length := by
  refine ⟨_, analyze_ok df h, ?_, ?_⟩ <;>
    simp [summaryOf, errorRows, warningRows, List.countP_eq_length_filter]

/-- Witness for C9 at a concrete non-empty collection. -/
theorem claim_C9_witness :
    sampleJobsDf ≠ [] ∧
    ∃ res : AnalysisResult, analyze sampleJobsDf = Except.ok res ∧
      res.summary.error_count = res.errors.length ∧
      res.summary.warning_count = res.warnings.length :=
  ⟨by decide, claim_C9 sampleJobsDf (by decide)⟩

/-- C6 (code bug at the empty collection): on every non-empty collection
the slow-operations list is the 10 duration-bearing rows of greatest
duration (all of them when fewer exist), in descending duration order with
ties broken by original position, every excluded duration-bearing row
having a duration no greater than every included one, and it is empty when
no row has a duration; but on the empty collection — where the claim
asserts the empty list — `_analyze_performance` fails with `KeyError` on
the missing `duration` column instead. -/
theorem claim_C6 :
    (∀ df : List LogRecord, df ≠ [] →
      (slowOpsIdx df).length = min 10 (withDurIdx df).length ∧
      (∀ p ∈ slowOpsIdx df, p ∈ withDurIdx df) ∧
      List.Pairwise
        (fun a b => durOf b < durOf a ∨ (durOf a = durOf b ∧ a.1 < b.1))
        (slowOpsIdx df) ∧
      (∀ p ∈ withDurIdx df, p ∉ slowOpsIdx df →
        ∀ q ∈ slowOpsIdx df, durOf p ≤ durOf q) ∧
      (∃ perf : Performance, analyze_performance df = Except.ok perf ∧
        perf.slow_operations = (slowOpsIdx df).map Prod.snd ∧
        (withDurIdx df = [] → perf.slow_operations = []))) ∧
    analyze_performance [] = Except.error "KeyError: duration" := by
  refine ⟨?_, rfl⟩
  intro df hdf
  have hperm : ((withDurIdx df).insertionSort slowRel).Perm (withDurIdx df) :=
    List.perm_insertionSort slowRel (withDurIdx df)
  have hsorted : List.Pairwise slowRel ((withDurIdx df).insertionSort slowRel) :=
    List.sorted_insertionSort slowRel (withDurIdx df)
  have hfst : List.Pairwise (fun a b : Nat × LogRecord => a.1 < b.1)
      (withDurIdx df) :=
    (pairwise_fst_lt_enumFrom df 0).filter _
  have hnodupS : List.Pairwise (fun a b : Nat × LogRecord => a.1 ≠ b.1)
      ((withDurIdx df).insertionSort slowRel) := by
    have h1 : List.Nodup ((withDurIdx df).map Prod.fst) :=
      List.pairwise_map.2 (hfst.imp fun h => Nat.ne_of_lt h)
    have h2 : List.Nodup
        (((withDurIdx df).insertionSort slowRel).map Prod.fst) :=
      ((hperm.map Prod.fst).symm).nodup h1
    exact List.pairwise_map.1 h2
  have hstrict : List.Pairwise
      (fun a b => durOf b < durOf a ∨ (durOf a = durOf b ∧ a.1 < b.1))
      ((withDurIdx df).insertionSort slowRel) := by
    refine (hsorted.and hnodupS).imp ?_
    rintro a b ⟨hr, hne⟩
    rcases hr with h | ⟨h, hle⟩
    · exact Or.inl h
    · exact Or.inr ⟨h, Nat.lt_of_le_of_ne hle hne⟩
  have hms : (withDurIdx df).map Prod.snd =
      df.filter (fun r => r.duration.isSome) := by
    rw [withDurIdx]
    exact map_snd_filter_enumFrom (fun r => r.duration.isSome) df 0
  have hbridge : (perfOf df).slow_operations =
      (slowOpsIdx df).map Prod.snd := by
    by_cases hpos : (df.filter (fun r => r.duration.isSome)).length > 0
    · simp [perfOf, hpos]
    · have h0 : df.filter (fun r => r.duration.isSome) = [] := by
        rcases Nat.eq_zero_or_pos (df.filter (fun r => r.duration.isSome)).length
          with h | h
        · exact List.length_eq_zero.1 h
        · exact absurd h hpos
      have hwd : withDurIdx df = [] := by
        rw [h0] at hms
        exact List.map_eq_nil_iff.1 hms
      simp [perfOf, hpos, slowOpsIdx, hwd]
  refine ⟨?_, ?_, ?_, ?_,
    ⟨perfOf df, analyze_performance_ok df hdf, hbridge, ?_⟩⟩
  · rw [slowOpsIdx, List.length_take, hperm.length_eq]
  · intro p hp
    exact hperm.mem_iff.1 (List.take_subset 10 _ hp)
  · exact List.Pairwise.sublist (List.take_sublist 10 _) hstrict
  · intro p hpwd hpnot q hq
    have hpS : p ∈ (withDurIdx df).insertionSort slowRel :=
      hperm.mem_iff.2 hpwd
    have hsplit := List.take_append_drop 10
      ((withDurIdx df).insertionSort slowRel)
    rw [← hsplit] at hpS
    have hpdrop : p ∈ ((withDurIdx df).insertionSort slowRel).drop 10 := by
      rcases List.mem_append.1 hpS with h | h
      · exact absurd h hpnot
      · exact h
    have hpw : List.Pairwise slowRel
        (((withDurIdx df).insertionSort slowRel).take 10 ++
          ((withDurIdx df).insertionSort slowRel).drop 10) := by
      rw [hsplit]
      exact hsorted
    have hle := (List.pairwise_append.1 hpw).2.2 q hq p hpdrop
    rcases hle with h | ⟨h, _⟩
    · exact le_of_lt h
    · exact le_of_eq h.symm
  · intro hwd
    rw [hbridge]
    simp [slowOpsIdx, hwd]

/-- Witness for C6: with eleven distinct durations, the excluded row's
duration is bounded by an included row's duration. -/
theorem claim_C6_witness :
    (0, mkRec 1 none false false (some ((0 : ℕ) : ℚ))) ∈ withDurIdx sampleDurDf ∧
    (0, mkRec 1 none false false (some ((0 : ℕ) : ℚ))) ∉ slowOpsIdx sampleDurDf ∧
    (10, mkRec 11 none false false (some ((10 : ℕ) : ℚ))) ∈
      slowOpsIdx sampleDurDf ∧
    durOf (0, mkRec 1 none false false (some ((0 : ℕ) : ℚ))) ≤
      durOf (10, mkRec 11 none false false (some ((10 : ℕ) : ℚ))) := by
  refine ⟨by decide, by decide, by decide, ?_⟩
  exact (claim_C6.1 sampleDurDf (by decide)).2.2.2.1 _ (by decide) (by decide)
    _ (by decide)

/-- C7 (code bug at the empty collection): on every non-empty collection
the root causes are one suggestion per keyword family with its match count
over the error subset, in the fixed family order, then the performance
suggestion exactly when some duration exceeds 60 seconds, with the single
no-issues fallback exactly when nothing else was emitted; but on the empty
collection — where the claim asserts the no-issues suggestion —
`_suggest_root_causes` fails with `KeyError` on the missing `is_error`
column instead. -/
theorem claim_C7 :
    (∀ df : List LogRecord, df ≠ [] →
      (suggest_root_causes df = Except.ok
        (let famSugs :=
          [(connKeywords, "‚ö†Ô∏è Connection/Network Issues: "),
           (memKeywords, "‚ö†Ô∏è Memory Issues: "),
           (dataKeywords, "‚ö†Ô∏è Data Quality Issues: "),
           (permKeywords, "‚ö†Ô∏è Permission/Access Issues: ")].filterMap
            (fun f => if famCount df f.1 > 0 then
              some (f.2 ++ toString (famCount df f.1) ++ " occurrences")
            else none)
         let perfSugs :=
          if (slowOver60 df).length > 0 then
            ["‚ö†Ô∏è Performance Bottlenecks: " ++
              toString (slowOver60 df).length ++ " slow operations (>60s)"]
          else []
         if famSugs ++ perfSugs = [] then ["‚úì No obvious issues detected"]
         else famSugs ++ perfSugs)) ∧
      (∀ kws : List String, (famCount df kws > 0 ↔
        ∃ r ∈ errorRows df, containsAnyCI kws r.raw_text = true)) ∧
      ((slowOver60 df).length > 0 ↔
        ∃ r ∈ df, ∃ d : ℚ, r.duration = some d ∧ 60 < d)) ∧
    suggest_root_causes [] = Except.error "KeyError: is_error" := by
  refine ⟨?_, rfl⟩
  intro df hdf
  refine ⟨?_, ?_, ?_⟩
  · rw [suggest_root_causes_ok df hdf]
    refine congrArg Except.ok ?_
    by_cases herr : (errorRows df).length > 0
    · simp only [rootCausesOf, if_pos herr, filterMap_ite_cons,
        List.filterMap_nil, List.append_nil, List.append_assoc,
        List.isEmpty_iff]
    · have hnil : errorRows df = [] := by
        rcases Nat.eq_zero_or_pos (errorRows df).length with h | h
        · exact List.length_eq_zero.1 h
        · exact absurd h herr
      have hfam : ∀ kws : List String, famCount df kws = 0 := by
        intro kws
        simp [famCount, hnil]
      simp only [rootCausesOf, if_neg herr, filterMap_ite_cons,
        List.filterMap_nil, List.append_nil, List.append_assoc,
        List.isEmpty_iff, hfam]
      simp
  · intro kws
    rw [famCount, ← List.countP_eq_length_filter, gt_iff_lt,
      List.countP_pos_iff]
  · rw [slowOver60, ← List.countP_eq_length_filter, gt_iff_lt,
      List.countP_pos_iff]
    constructor
    · rintro ⟨r, hr, hp⟩
      refine ⟨r, hr, ?_⟩
      cases hd : r.duration with
      | none => rw [hd] at hp; exact absurd hp (by simp)
      | some d =>
        rw [hd] at hp
        exact ⟨d, rfl, of_decide_eq_true hp⟩
    · rintro ⟨r, hr, d, hd, hlt⟩
      exact ⟨r, hr, by rw [hd]; exact decide_eq_true hlt⟩

/-- Witness instantiating C7's performance-rule characterisation at a
concrete non-empty collection. -/
theorem claim_C7_witness :
    (slowOver60 sampleErrDf).length > 0 ↔
      ∃ r ∈ sampleErrDf, ∃ d : ℚ, r.duration = some d ∧ 60 < d :=
  (claim_C7.1 sampleErrDf (by decide)).2.2

/-- C8 (code bug at the empty collection): on every non-empty collection
the jobs rollup keys are the distinct present job names in order of first
appearance, and each name maps to its group's occurrence count, error
count, warning count and average duration over the group's duration-bearing
rows (absent when the group has none); but on the empty collection — part
of the claim's "every record collection" — `_analyze_jobs` fails with
`KeyError` on the missing `job_name` column instead of returning a
mapping. -/
theorem claim_C8 :
    (∀ df : List LogRecord, df ≠ [] →
      analyze_jobs df = Except.ok (jobsOf df) ∧
      ((jobsOf df).map Prod.fst =
        uniqueFirst ((df.filter (fun r => r.job_name.isSome)).filterMap
          (fun r => r.job_name))) ∧
      (∀ s : String, (s ∈ (jobsOf df).map Prod.fst ↔
        some s ∈ df.map (fun r => r.job_name))) ∧
      (∀ (name : String) (stats : JobStats), (name, stats) ∈ jobsOf df →
      stats.occurrences =
        (df.filter (fun r => decide (r.job_name = some name))).length ∧
      stats.errors =
        (df.filter (fun r => decide (r.job_name = some name))).countP
          (fun r => r.is_error) ∧
      stats.warnings =
        (df.filter (fun r => decide (r.job_name = some name))).countP
          (fun r => r.is_warning) ∧
      stats.avg_duration =
        (if ((df.filter (fun r => decide (r.job_name = some name))).filterMap
              (fun r => r.duration)).isEmpty
         then none
         else some
           (qSum ((df.filter (fun r => decide (r.job_name = some name))).filterMap
              (fun r => r.duration)) /
            (((df.filter (fun r => decide (r.job_name = some name))).filterMap
              (fun r => r.duration)).length : ℚ))))) ∧
    analyze_jobs [] = Except.error "KeyError: job_name" := by
  refine ⟨?_, rfl⟩
  intro df hdf
  have hkeys : (jobsOf df).map Prod.fst =
      uniqueFirst ((df.filter (fun r => r.job_name.isSome)).filterMap
        (fun r => r.job_name)) := by
    by_cases hz : (df.filter (fun r => r.job_name.isSome)).length = 0
    · have hnil : df.filter (fun r => r.job_name.isSome) = [] :=
        List.length_eq_zero.1 hz
      simp [jobsOf, hz, hnil, uniqueFirst, uniqueFirstAux]
    · simp only [jobsOf, if_neg hz, List.map_map]
      have hid : (Prod.fst ∘ fun name =>
          (name, jobStatsFor (List.filter (fun r => r.job_name.isSome) df)
            name)) = id := rfl
      rw [hid, List.map_id]
  refine ⟨analyze_jobs_ok df hdf, hkeys, ?_, ?_⟩
  · intro s
    rw [hkeys, mem_uniqueFirst, filterMap_filter_isSome, List.mem_filterMap]
    constructor
    · rintro ⟨r, hr, hs⟩
      exact List.mem_map.2 ⟨r, hr, hs⟩
    · intro h
      rcases List.mem_map.1 h with ⟨r, hr, hs⟩
      exact ⟨r, hr, hs⟩
  · intro name stats hmem
    have hstats : stats =
        jobStatsFor (df.filter (fun r => r.job_name.isSome)) name := by
      rw [jobsOf] at hmem
      by_cases hz : (df.filter (fun r => r.job_name.isSome)).length = 0
      · rw [if_pos hz] at hmem
        exact absurd hmem (List.not_mem_nil _)
      · rw [if_neg hz] at hmem
        rcases List.mem_map.1 hmem with ⟨k, _, hk⟩
        have h1 : k = name := congrArg Prod.fst hk
        have h2 := congrArg Prod.snd hk
        rw [h1] at h2
        exact h2.symm
    have hgrp : (df.filter (fun r => r.job_name.isSome)).filter
        (fun r => decide (r.job_name = some name)) =
        df.filter (fun r => decide (r.job_name = some name)) :=
      filter_isSome_filter (fun r => r.job_name) name df
    subst hstats
    refine ⟨?_, ?_, ?_, ?_⟩ <;> simp [jobStatsFor, hgrp]

/-- Witness for C8 at a concrete non-empty collection with two job names. -/
theorem claim_C8_witness :
    (jobStatsFor (sampleJobsDf.filter (fun r => r.job_name.isSome))
        "A").occurrences =
      (sampleJobsDf.filter (fun r => decide (r.job_name = some "A"))).length ∧
    (jobStatsFor (sampleJobsDf.filter (fun r => r.job_name.isSome))
        "A").errors =
      (sampleJobsDf.filter (fun r => decide (r.job_name = some "A"))).countP
        (fun r => r.is_error) := by
  have h := (claim_C8.1 sampleJobsDf (by decide)).2.2.2 "A"
    (jobStatsFor (sampleJobsDf.filter (fun r => r.job_name.isSome)) "A")
    (List.mem_cons_self _ _)
  exact ⟨h.1, h.2.1⟩

/-- C10: token matching is plain substring search with no word-boundary
requirement: any line containing an error/warning/info/success token —
also inside a longer word — makes the corresponding boolean or level
pattern match. -/
theorem claim_C10 (line : String) :
    (∀ p ∈ errorPatterns, ∀ t ∈ p, substrCI t.data line.data = true →
      is_error line = true) ∧
    (∀ p ∈ warningPatterns, ∀ t ∈ p, substrCI t.data line.data = true →
      is_warning line = true) ∧
    (∀ t ∈ successAlts, substrCI t.data line.data = true →
      searchAlts successAlts line = true) ∧
    (∀ t ∈ infoAlts, substrCI t.data line.data = true →
      searchAlts infoAlts line = true) := by
  refine ⟨?_, ?_, ?_, ?_⟩
  · intro p hp t ht h
    simp only [is_error, searchAlts, List.any_eq_true]
    exact ⟨p, hp, t, ht, h⟩
  · intro p hp t ht h
    simp only [is_warning, searchAlts, List.any_eq_true]
    exact ⟨p, hp, t, ht, h⟩
  · intro t ht h
    simp only [searchAlts, List.any_eq_true]
    exact ⟨t, ht, h⟩
  · intro t ht h
    simp only [searchAlts, List.any_eq_true]
    exact ⟨t, ht, h⟩

/-- Witness for C10: `error` inside `error_handler` and `WARN` inside a
longer identifier both trigger the booleans. -/
theorem claim_C10_witness :
    substrCI "error".data "status=error_handler ok".data = true ∧
    is_error "status=error_handler ok" = true ∧
    substrCI "WARN".data "myWARNing led".data = true ∧
    is_warning "myWARNing led" = true :=
  ⟨by decide,
   (claim_C10 "status=error_handler ok").1 ["error", "failure", "exception"]
     (by decide) "error" (by decide) (by decide),
   by decide,
   (claim_C10 "myWARNing led").2.1 ["WARNING", "WARN"] (by decide)
     "WARN" (by decide) (by decide)⟩

end ETL
